import Mathlib

/-!
Verification of the Gesture Classification & Text-Assembly Engine of the
two-way sign-language translator (`two_way_translator.py`).

Shallow embedding conventions:
* Python strings are Lean `String`s.  Resolved symbols are the string values
  the source stores in `ten_prev_char`: single upper-case letters such as
  `"A"`, the space `" "`, the control marker `"next"`, and (hypothetically)
  `"Backspace"`.
* Landmark points (`self.pts`, produced as integer pixel coordinates by the
  hand detector) are pairs of `Int`; the 21-point list is a `List (Int × Int)`.
* `math.sqrt(dx*dx + dy*dy) > t` over integer coordinates is embedded as the
  exact integer comparison `t*t < dx*dx + dy*dy`; for non-negative operands
  the two are equivalent (`sq_lt_iff_lt_sqrt` bridge below), and the perfect
  square at the boundary (`42.0`, `72.0`) is represented exactly by the
  double-precision `math.sqrt`, so the float comparison in the source agrees
  with the real comparison on every integer input.
* Python `%` on a negative left operand and positive divisor agrees with
  Lean's `Int.emod` (`(-1) % 10 = 9` in both).
* Python `s[:-1]` on a string is `pyDropLast`, `s.rfind(" ")` is `pyRfind`,
  `s[st+1:]` is dropping `(st+1).toNat` characters.
-/

/-- Python's `s[:-1]`: drop the final character; the empty string maps to
itself (no error). -/
def pyDropLast (s : String) : String := ⟨s.data.dropLast⟩

/-- Python's `s.rfind(c)`: index of the last occurrence of `c`, `-1` when the
character does not occur. -/
def pyRfind (s : String) (c : Char) : Int :=
  match s.data.reverse.findIdx? (fun a => a == c) with
  | some i => (s.data.length : Int) - 1 - (i : Int)
  | none => -1

/-- Squared Euclidean distance of two integer points.  The source's
`distance(x, y) = math.sqrt((x0-y0)**2 + (x1-y1)**2)` satisfies
`distance(x, y) > t  ↔  t*t < distSq x y` for `0 ≤ t`. -/
def distSq (a b : Int × Int) : Int :=
  (a.1 - b.1) ^ 2 + (a.2 - b.2) ^ 2

/-- Landmark accessor `self.pts[i]` (the caller guarantees 21 points). -/
def pt (pts : List (Int × Int)) (i : Nat) : Int × Int := pts.getD i (0, 0)

/-- The mutable recognition state of `TwoWayTranslatorApp` that the engine
(`predict`, `apply_suggestion`, `clear_text`) reads and writes, with the
initial values assigned in `__init__`. -/
structure AppState where
  /-- `self.str`, initially `" "`. -/
  str : String
  /-- `self.word`, initially `" "`. -/
  word : String
  /-- `self.current_symbol`, initially `""`. -/
  current_symbol : String
  /-- `self.prev_char`, initially `""`. -/
  prev_char : String
  /-- `self.count`, initially `-1`. -/
  count : Int
  /-- `self.ten_prev_char`, initially ten blanks. -/
  ten_prev_char : List String
  /-- suggestion slot `self.word1`, initially `" "`. -/
  word1 : String
  /-- suggestion slot `self.word2`, initially `" "`. -/
  word2 : String
  /-- suggestion slot `self.word3`, initially `" "`. -/
  word3 : String
  /-- suggestion slot `self.word4`, initially `" "`. -/
  word4 : String
deriving Repr, DecidableEq

/-- The state set up by `TwoWayTranslatorApp.__init__` (lines 155–167). -/
def initState : AppState :=
  { str := " ", word := " ", current_symbol := "", prev_char := "",
    count := -1, ten_prev_char := List.replicate 10 " ",
    word1 := " ", word2 := " ", word3 := " ", word4 := " " }

/-- The commit decision of one `predict` call, as an explicit effect. -/
inductive Effect where
  /-- `self.str = self.str + w` (the looked-back history entry `w`). -/
  | appendStr (w : String)
  /-- `self.str = self.str[:-1]`. -/
  | deleteLast
deriving Repr, DecidableEq

/-- The two-frames-back history slot `self.ten_prev_char[(self.count - 2) % 10]`
read by the commit check (line 569). -/
def lookback (s : AppState) : String :=
  s.ten_prev_char.getD ((s.count - 2) % 10).toNat " "

/-- The commit decision of `predict` lines 568–573: a commit happens only on
the rising edge of `"next"`, and then only when the looked-back slot is not
itself `"next"`; a looked-back `"Backspace"` deletes, anything else is
appended. -/
def commitEffect (s : AppState) (ch1 : String) : Option Effect :=
  if ch1 = "next" ∧ s.prev_char ≠ "next" then
    if lookback s ≠ "next" then
      if lookback s = "Backspace" then some Effect.deleteLast
      else some (Effect.appendStr (lookback s))
    else none
  else none

/-- Apply a commit decision to the sentence string. -/
def applyEffect (str : String) : Option Effect → String
  | some (Effect.appendStr w) => str ++ w
  | some Effect.deleteLast => pyDropLast str
  | none => str

/-- One step of the debounce/commit machine: `predict` lines 568–578 with the
frame's resolved symbol `ch1`.  After the commit check the source
unconditionally sets `prev_char`, `current_symbol`, increments `count` and
writes `ch1` into `ten_prev_char[count % 10]` (post-increment index). -/
def stepPredict (s : AppState) (ch1 : String) : AppState :=
  let str' := applyEffect s.str (commitEffect s ch1)
  let count' := s.count + 1
  { s with
    str := str'
    prev_char := ch1
    current_symbol := ch1
    count := count'
    ten_prev_char := s.ten_prev_char.set (count' % 10).toNat ch1 }

/-- Feed a sequence of resolved symbols, one per frame, through the
debounce/commit machine. -/
def runSymbols (s : AppState) (syms : List String) : AppState :=
  syms.foldl stepPredict s

/-- The `Space` post-pass override condition (`predict` lines 559–560):
`pts[6][1] > pts[8][1] and pts[10][1] < pts[12][1] and
 pts[14][1] < pts[16][1] and pts[18][1] > pts[20][1]`. -/
def spaceCond (pts : List (Int × Int)) : Prop :=
  (pt pts 6).2 > (pt pts 8).2 ∧ (pt pts 10).2 < (pt pts 12).2 ∧
    (pt pts 14).2 < (pt pts 16).2 ∧ (pt pts 18).2 > (pt pts 20).2

instance (pts : List (Int × Int)) : Decidable (spaceCond pts) := by
  unfold spaceCond; infer_instance

/-- The `next` post-pass override condition (`predict` lines 563–564):
`pts[4][0] < pts[5][0] and pts[6][1] > pts[8][1] and
 pts[10][1] > pts[12][1] and pts[14][1] > pts[16][1]`. -/
def nextCond (pts : List (Int × Int)) : Prop :=
  (pt pts 4).1 < (pt pts 5).1 ∧ (pt pts 6).2 > (pt pts 8).2 ∧
    (pt pts 10).2 > (pt pts 12).2 ∧ (pt pts 14).2 > (pt pts 16).2

instance (pts : List (Int × Int)) : Decidable (nextCond pts) := by
  unfold nextCond; infer_instance

/-- The class-keyed branch of the disambiguator (`predict` lines 532–556),
before the two post-pass overrides.  Distance comparisons are embedded as
exact squared-threshold comparisons (see the header note).  For a class
outside 0–7 the Python code leaves the integer class index in `ch1`; such a
class never occurs (the class is an argmax over 8 outputs), and we render the
leftover integer as its decimal string. -/
def classSymbol (cls : Nat) (pts : List (Int × Int)) : String :=
  if cls = 0 then
    let s := "S"
    let s := if (pt pts 4).1 < (pt pts 6).1 then "A" else s
    let s := if (pt pts 4).2 > (pt pts 8).2 then "E" else s
    s
  else if cls = 2 then
    if 42 * 42 < distSq (pt pts 12) (pt pts 4) then "C" else "O"
  else if cls = 3 then
    if 72 * 72 < distSq (pt pts 8) (pt pts 12) then "G" else "H"
  else if cls = 4 then "L"
  else if cls = 5 then "P"
  else if cls = 6 then "X"
  else if cls = 7 then
    if 42 * 42 < distSq (pt pts 8) (pt pts 4) then "Y" else "J"
  else if cls = 1 then
    if (pt pts 6).2 > (pt pts 8).2 ∧ (pt pts 10).2 > (pt pts 12).2 then "B"
    else if (pt pts 6).2 > (pt pts 8).2 ∧ (pt pts 10).2 < (pt pts 12).2 then "D"
    else "F"
  else toString cls

/-- The full Geometric Disambiguator (`predict` lines 532–565): the class
branch, then the `Space` override, then — checked last, so winning — the
`next` override. -/
def resolveSymbol (cls : Nat) (pts : List (Int × Int)) : String :=
  let s := classSymbol cls pts
  let s := if spaceCond pts then " " else s
  if nextCond pts then "next" else s

/-- Python's `len(s.strip()) != 0`: the strip removes leading and trailing
whitespace, so the stripped string is non-empty exactly when some character
of `s` is not whitespace. -/
def stripNonEmpty (s : String) : Bool :=
  s.data.any (fun c => !c.isWhitespace)

/-- The suggestion-refresh tail of `predict` (lines 581–590): when the
stripped sentence is non-empty, recompute the active word (the suffix after
the last space) and, when that word is non-blank, fill the four suggestion
slots from the external dictionary collaborator `suggest`, padding with the
blank placeholder. -/
def refreshSuggestions (suggest : String → List String) (s : AppState) :
    AppState :=
  if stripNonEmpty s.str then
    let st := pyRfind s.str ' '
    let word : String := ⟨s.str.data.drop (st + 1).toNat⟩
    let s' := { s with word := word }
    if stripNonEmpty word then
      let sugg := suggest word
      { s' with
        word1 := sugg.getD 0 " "
        word2 := sugg.getD 1 " "
        word3 := sugg.getD 2 " "
        word4 := sugg.getD 3 " " }
    else s'
  else s

/-- `clear_text` (lines 605–610): reset the sentence and the four suggestion
slots (the remaining configuration calls only touch UI labels). -/
def clearText (s : AppState) : AppState :=
  { s with str := " ", word1 := " ", word2 := " ", word3 := " ", word4 := " " }

-- Sanity checks of the embedding on concrete traces (Python semantics):
example : ((-1 : Int) % 10) = 9 := by decide
example : ((-3 : Int) % 10) = 7 := by decide
example : pyDropLast "" = "" := by decide
example : pyDropLast "ab" = "a" := by decide
example : pyRfind " HI" ' ' = 0 := by decide
example : pyRfind "HI" ' ' = -1 := by decide
example : (runSymbols initState ["A", "A", "next"]).str = "  " := by decide
example : (runSymbols initState ["A", "A", "A", "next"]).str = " A" := by decide
example :
    (runSymbols initState ["Backspace", "Backspace", "Backspace", "next"]).str
      = "" := by decide

/-- All-zero 21-point landmark list: both override conditions are false on it
(every strict comparison fails). -/
def blankPts : List (Int × Int) := List.replicate 21 (0, 0)

example : resolveSymbol 0 blankPts = "S" := by decide
example : resolveSymbol 4 blankPts = "L" := by decide
example : resolveSymbol 2 blankPts = "O" := by decide
example :
    resolveSymbol 2 (blankPts.set 12 (43, 0)) = "C" := by decide
example :
    resolveSymbol 2 (blankPts.set 12 (42, 0)) = "O" := by decide
example :
    (refreshSuggestions (fun w => [w]) { initState with str := " HI" }).word1
      = "HI" := by decide
example :
    (refreshSuggestions (fun _ => ["aa", "bb"]) { initState with str := " HI" }).word3
      = " " := by decide

/-- C1 (counterexample): from the freshly initialized state, the sequence
`"A", "A", "next"` does NOT append `"A"` (which would leave the sentence
`" A"`): it appends the untouched blank history slot, leaving `"  "`; and the
sequence `"A", "Backspace", "next"` does NOT emit a delete (which would leave
`pyDropLast " " = ""`): it also appends a blank, leaving `"  "`.  The commit
lookback `(count − 2) % 10` with `count` still at its pre-increment value
reads the slot written three frames earlier, not two. -/
theorem c1_two_frame_lookback_counterexample :
    (runSymbols initState ["A", "A", "next"]).str = "  " ∧
    ("  " : String) ≠ " A" ∧
    (runSymbols initState ["A", "Backspace", "next"]).str = "  " ∧
    ("  " : String) ≠ pyDropLast initState.str := by decide

/-- C1 (amended): the commit lookback lands on the slot written three frames
before the current one, so from the fresh state `"A", "A", "next"` appends
the blank placeholder; a symbol held for three frames and then confirmed with
`"next"` is committed: three `"A"` frames append `"A"`, and three
`"Backspace"` frames trigger the delete branch. -/
theorem c1_three_frame_lookback :
    (runSymbols initState ["A", "A", "next"]).str = initState.str ++ " " ∧
    (runSymbols initState ["A", "A", "A", "next"]).str = initState.str ++ "A" ∧
    (runSymbols initState ["Backspace", "Backspace", "Backspace", "next"]).str
      = pyDropLast initState.str := by decide

/-- C2: a resolved symbol other than `"next"` never changes the sentence:
the entire commit branch of `predict` is guarded by `ch1 == "next"`. -/
theorem c2_only_next_commits (s : AppState) (ch1 : String)
    (h : ch1 ≠ "next") : (stepPredict s ch1).str = s.str := by
  simp [stepPredict, commitEffect, applyEffect, h]

theorem c2_only_next_commits_witness :
    (stepPredict initState "A").str = initState.str :=
  c2_only_next_commits initState "A" (by decide)

/-- C3: the `"next"` commit is edge-triggered: after one `"next"` step the
machine's `prev_char` is `"next"`, so the second and third `"next"` of any
`next, next, next` burst produce no commit effect; and a commit can happen
only when `prev_char` is not already `"next"`. -/
theorem c3_next_edge_triggered (s : AppState) :
    commitEffect (stepPredict s "next") "next" = none ∧
    commitEffect (stepPredict (stepPredict s "next") "next") "next" = none ∧
    (s.prev_char = "next" → commitEffect s "next" = none) := by
  refine ⟨?_, ?_, fun h => ?_⟩
  · simp [commitEffect, stepPredict]
  · simp [commitEffect, stepPredict]
  · simp [commitEffect, h]

theorem c3_next_edge_triggered_witness :
    commitEffect { initState with prev_char := "next" } "next" = none :=
  (c3_next_edge_triggered { initState with prev_char := "next" }).2.2 (by decide)

/-- C8: `clear_text` resets the sentence to the blank representation of the
empty sentence and all four suggestion slots to the placeholder, and leaves
every other engine field — in particular the debounce machine's `history`,
`prev_char` and `count` — exactly unchanged. -/
theorem c8_clear_resets_text_only (s : AppState) :
    (clearText s).str = " " ∧ stripNonEmpty (clearText s).str = false ∧
    (clearText s).word1 = " " ∧ (clearText s).word2 = " " ∧
    (clearText s).word3 = " " ∧ (clearText s).word4 = " " ∧
    (clearText s).ten_prev_char = s.ten_prev_char ∧
    (clearText s).prev_char = s.prev_char ∧
    (clearText s).count = s.count ∧
    (clearText s).word = s.word ∧
    (clearText s).current_symbol = s.current_symbol := by
  refine ⟨rfl, ?_, rfl, rfl, rfl, rfl, rfl, rfl, rfl, rfl, rfl⟩
  show stripNonEmpty " " = false
  decide

/-- C9: the delete effect is total on sentences: on the empty sentence it is
a no-op (Python's `s[:-1]` of the empty string is the empty string, no
error), and on a sentence ending in `c` it removes exactly that final
character. -/
theorem c9_delete_last_total :
    applyEffect "" (some Effect.deleteLast) = "" ∧
    ∀ (s : String) (c : Char),
      applyEffect (s.push c) (some Effect.deleteLast) = s := by
  refine ⟨rfl, fun s c => ?_⟩
  show pyDropLast (s.push c) = s
  cases s with
  | mk data => simp [pyDropLast, String.push]

/-- C4: on the class-2 branch, with neither post-pass override firing, the
result is `"C"` exactly when the Euclidean distance between point 12 and
point 4 exceeds 42, and `"O"` otherwise — strictly-greater semantics, so a
distance of exactly 42 resolves to `"O"` (see the boundary witness). -/
theorem c4_class2_distance (pts : List (Int × Int))
    (hs : ¬ spaceCond pts) (hn : ¬ nextCond pts) :
    (resolveSymbol 2 pts = "C" ↔
      (42 : ℝ) < Real.sqrt ((distSq (pt pts 12) (pt pts 4) : Int) : ℝ)) ∧
    (resolveSymbol 2 pts = "O" ↔
      ¬ (42 : ℝ) < Real.sqrt ((distSq (pt pts 12) (pt pts 4) : Int) : ℝ)) := by
  have hsq : (42 : ℝ) < Real.sqrt ((distSq (pt pts 12) (pt pts 4) : Int) : ℝ) ↔
      42 * 42 < distSq (pt pts 12) (pt pts 4) := by
    rw [Real.lt_sqrt (by norm_num)]
    constructor
    · intro h
      exact_mod_cast (by push_cast at h ⊢; nlinarith : ((42 * 42 : Int) : ℝ) <
        ((distSq (pt pts 12) (pt pts 4) : Int) : ℝ))
    · intro h
      have : ((42 * 42 : Int) : ℝ) < ((distSq (pt pts 12) (pt pts 4) : Int) : ℝ) := by
        exact_mod_cast h
      push_cast at this ⊢
      nlinarith
  rw [hsq]
  by_cases hlt : 42 * 42 < distSq (pt pts 12) (pt pts 4)
  · simp only [resolveSymbol, classSymbol]
    simp [hs, hn, hlt]
  · simp only [resolveSymbol, classSymbol]
    simp [hs, hn, hlt]

/-- C4 boundary witness: `pts[12] = (42, 0)` and `pts[4] = (0, 0)` put the
two points at Euclidean distance exactly 42, and the class-2 branch resolves
to `"O"`. -/
theorem c4_class2_distance_witness :
    resolveSymbol 2 (blankPts.set 12 (42, 0)) = "O" := by
  have h := c4_class2_distance (blankPts.set 12 (42, 0)) (by decide) (by decide)
  apply h.2.mpr
  have hd : distSq (pt (blankPts.set 12 (42, 0)) 12)
      (pt (blankPts.set 12 (42, 0)) 4) = 1764 := by decide
  rw [hd]
  have h42 : Real.sqrt ((1764 : Int) : ℝ) = 42 := by
    rw [show ((1764 : Int) : ℝ) = 42 ^ 2 by norm_num]
    exact Real.sqrt_sq (by norm_num)
  rw [h42]
  norm_num

/-- C5: on the class-0 branch, with neither post-pass override firing, the
default is `"S"`; the thumb-left-of-point-6 test reclassifies to `"A"`, and
the thumb-below-index-tip test, evaluated afterwards, reclassifies to `"E"`
and overrides the `"A"` reclassification whenever both hold. -/
theorem c5_class0_rules (pts : List (Int × Int))
    (hs : ¬ spaceCond pts) (hn : ¬ nextCond pts) :
    ((pt pts 4).2 > (pt pts 8).2 → resolveSymbol 0 pts = "E") ∧
    (¬ (pt pts 4).2 > (pt pts 8).2 → (pt pts 4).1 < (pt pts 6).1 →
      resolveSymbol 0 pts = "A") ∧
    (¬ (pt pts 4).2 > (pt pts 8).2 → ¬ (pt pts 4).1 < (pt pts 6).1 →
      resolveSymbol 0 pts = "S") := by
  refine ⟨fun hE => ?_, fun hE hA => ?_, fun hE hA => ?_⟩
  · simp [resolveSymbol, classSymbol, hs, hn, hE]
  · simp [resolveSymbol, classSymbol, hs, hn, hE, hA]
  · simp [resolveSymbol, classSymbol, hs, hn, hE, hA]

/-- C5 witness: with the thumb tip at `(-1, 5)` both the `"A"` condition and
the `"E"` condition hold, and the later `"E"` check wins. -/
theorem c5_class0_rules_witness :
    resolveSymbol 0 (blankPts.set 4 (-1, 5)) = "E" :=
  (c5_class0_rules (blankPts.set 4 (-1, 5)) (by decide) (by decide)).1 (by decide)

/-- C6: the `Space` override requires `pts[10][1] < pts[12][1]` while the
`next` override requires `pts[10][1] > pts[12][1]`, so no landmark list
satisfies both; and since the `next` check runs after the `Space` check, a
satisfied `next` condition always forces the `"next"` marker. -/
theorem c6_overrides_exclusive (pts : List (Int × Int)) (cls : Nat) :
    ¬ (spaceCond pts ∧ nextCond pts) ∧
    (nextCond pts → resolveSymbol cls pts = "next") := by
  constructor
  · rintro ⟨⟨_, h10, _, _⟩, ⟨_, _, h10', _⟩⟩
    exact absurd h10' (lt_asymm h10)
  · intro h
    unfold resolveSymbol
    rw [if_pos h]

/-- C6 witness: a landmark list satisfying the `next` condition resolves to
`"next"` regardless of the coarse class. -/
theorem c6_overrides_exclusive_witness :
    resolveSymbol 0 ((((blankPts.set 5 (1, 0)).set 6 (0, 1)).set 10 (0, 1)).set 14 (0, 1))
      = "next" :=
  (c6_overrides_exclusive
    ((((blankPts.set 5 (1, 0)).set 6 (0, 1)).set 10 (0, 1)).set 14 (0, 1)) 0).2
    (by decide)

/-- C7 (counterexample): the suggestion refresh hands the dictionary
collaborator the active word exactly as it appears in the sentence, NOT its
lowercase form: with the identity collaborator and sentence `" HI"`, the
first suggestion slot receives `"HI"`, not `"hi"`. -/
theorem c7_lowercase_counterexample :
    (refreshSuggestions (fun w => [w]) { initState with str := " HI" }).word1
      = "HI" ∧
    ¬ (refreshSuggestions (fun w => [w]) { initState with str := " HI" }).word1
      = "hi" := by decide

/-- C7 (amended): when the stripped sentence and the active word (the suffix
after the last space) are non-blank, the refresh queries the collaborator
with the active word as-is (no lowercasing), stores the first four returned
candidates in the collaborator's order, and pads missing slots with the
blank placeholder; the sentence itself is untouched. -/
theorem c7_refresh_suggestions (f : String → List String) (s : AppState)
    (h1 : stripNonEmpty s.str = true)
    (h2 : stripNonEmpty ⟨s.str.data.drop ((pyRfind s.str ' ') + 1).toNat⟩ = true) :
    (refreshSuggestions f s).word
        = ⟨s.str.data.drop ((pyRfind s.str ' ') + 1).toNat⟩ ∧
    (refreshSuggestions f s).word1
        = (f ⟨s.str.data.drop ((pyRfind s.str ' ') + 1).toNat⟩).getD 0 " " ∧
    (refreshSuggestions f s).word2
        = (f ⟨s.str.data.drop ((pyRfind s.str ' ') + 1).toNat⟩).getD 1 " " ∧
    (refreshSuggestions f s).word3
        = (f ⟨s.str.data.drop ((pyRfind s.str ' ') + 1).toNat⟩).getD 2 " " ∧
    (refreshSuggestions f s).word4
        = (f ⟨s.str.data.drop ((pyRfind s.str ' ') + 1).toNat⟩).getD 3 " " ∧
    (refreshSuggestions f s).str = s.str := by
  unfold refreshSuggestions
  rw [if_pos h1, if_pos h2]
  exact ⟨rfl, rfl, rfl, rfl, rfl, rfl⟩

/-- C7 witness: sentence `" HI"` with a collaborator returning two
candidates: the first two slots receive them in order and the last two are
padded with the blank placeholder. -/
theorem c7_refresh_suggestions_witness :
    (refreshSuggestions (fun _ => ["aa", "bb"]) { initState with str := " HI" }).word1
      = "aa" ∧
    (refreshSuggestions (fun _ => ["aa", "bb"]) { initState with str := " HI" }).word4
      = " " := by
  have h := c7_refresh_suggestions (fun _ => ["aa", "bb"])
    { initState with str := " HI" } (by decide) (by decide)
  exact ⟨h.2.1.trans (by decide), h.2.2.2.2.1.trans (by decide)⟩

/-- The symbols the Disambiguator can produce for an in-range coarse class:
fifteen letters, the space, and the `"next"` marker.  `"Backspace"` is not
among them. -/
def allowedSymbols : List String :=
  ["A", "B", "C", "D", "E", "F", "G", "H", "J", "L", "O", "P", "S", "X", "Y",
    " ", "next"]

lemma resolveSymbol_mem_allowed (cls : Nat) (pts : List (Int × Int))
    (h : cls ≤ 7) : resolveSymbol cls pts ∈ allowedSymbols := by
  by_cases hn : nextCond pts
  · simp [resolveSymbol, hn, allowedSymbols]
  · by_cases hs : spaceCond pts
    · simp [resolveSymbol, hn, hs, allowedSymbols]
    · have hcs : resolveSymbol cls pts = classSymbol cls pts := by
        simp [resolveSymbol, hn, hs]
      rw [hcs]
      interval_cases cls <;> simp [classSymbol] <;>
        first
        | decide
        | (split_ifs <;> decide)

lemma resolveSymbol_ne_backspace (cls : Nat) (pts : List (Int × Int))
    (h : cls ≤ 7) : resolveSymbol cls pts ≠ "Backspace" := by
  intro hEq
  have hmem := resolveSymbol_mem_allowed cls pts h
  rw [hEq] at hmem
  exact absurd hmem (by decide)

/-- Reachability invariant of the debounce machine: the history buffer keeps
its ten slots and never holds `"Backspace"`. -/
def NoBackspaceInv (s : AppState) : Prop :=
  s.ten_prev_char.length = 10 ∧ "Backspace" ∉ s.ten_prev_char

lemma lookback_ne_backspace (s : AppState) (h : NoBackspaceInv s) :
    lookback s ≠ "Backspace" := by
  obtain ⟨hlen, hmem⟩ := h
  unfold lookback
  have h1 : 0 ≤ (s.count - 2) % 10 := Int.emod_nonneg _ (by norm_num)
  have h2 : (s.count - 2) % 10 < 10 := Int.emod_lt_of_pos _ (by norm_num)
  have hidx : ((s.count - 2) % 10).toNat < s.ten_prev_char.length := by
    rw [hlen]; omega
  rw [List.getD_eq_getElem?_getD, List.getElem?_eq_getElem hidx]
  intro hEq
  exact hmem (hEq ▸ List.getElem_mem hidx)

lemma stepPredict_preserves (s : AppState) (ch1 : String)
    (hInv : NoBackspaceInv s) (hch : ch1 ≠ "Backspace") :
    NoBackspaceInv (stepPredict s ch1) ∧
      s.str.length ≤ (stepPredict s ch1).str.length ∧
      commitEffect s ch1 ≠ some Effect.deleteLast := by
  have hlb := lookback_ne_backspace s hInv
  have heff : commitEffect s ch1 ≠ some Effect.deleteLast := by
    unfold commitEffect
    split_ifs <;> simp_all
  refine ⟨⟨?_, ?_⟩, ?_, heff⟩
  · show (s.ten_prev_char.set _ _).length = 10
    rw [List.length_set, hInv.1]
  · show "Backspace" ∉ s.ten_prev_char.set _ _
    intro hmem
    rcases List.mem_or_eq_of_mem_set hmem with h | h
    · exact hInv.2 h
    · exact hch h.symm
  · show s.str.length ≤ (applyEffect s.str (commitEffect s ch1)).length
    cases hE : commitEffect s ch1 with
    | none => simp [applyEffect]
    | some e =>
      cases e with
      | appendStr w => simp [applyEffect]
      | deleteLast => exact absurd hE heff

lemma runSymbols_preserves (syms : List String) : ∀ s : AppState,
    NoBackspaceInv s → (∀ x ∈ syms, x ≠ "Backspace") →
    NoBackspaceInv (runSymbols s syms) ∧
      s.str.length ≤ (runSymbols s syms).str.length := by
  induction syms with
  | nil => intro s h _; exact ⟨h, le_refl _⟩
  | cons a as ih =>
    intro s h hall
    have ha : a ≠ "Backspace" := hall a (List.mem_cons_self a as)
    have hs := stepPredict_preserves s a h ha
    have hrest := ih (stepPredict s a) hs.1
      (fun x hx => hall x (List.mem_cons_of_mem a hx))
    exact ⟨hrest.1, le_trans hs.2.1 hrest.2⟩

/-- C10: for every in-range coarse class the Disambiguator produces one of
the fifteen letters, the space, or the `"next"` marker — never
`"Backspace"`; consequently, along every run from the freshly initialized
state that feeds only Disambiguator outputs, the delete branch of the commit
step can never fire and the sentence length never decreases, neither across
a whole run nor across any single further step. -/
theorem c10_backspace_unreachable :
    (∀ (cls : Nat) (pts : List (Int × Int)), cls ≤ 7 →
      resolveSymbol cls pts ∈ allowedSymbols) ∧
    (∀ frames : List (Nat × List (Int × Int)), (∀ f ∈ frames, f.1 ≤ 7) →
      ∀ (cls : Nat) (pts : List (Int × Int)), cls ≤ 7 →
        commitEffect (runSymbols initState (frames.map fun f => resolveSymbol f.1 f.2))
            (resolveSymbol cls pts) ≠ some Effect.deleteLast ∧
        (runSymbols initState (frames.map fun f => resolveSymbol f.1 f.2)).str.length ≤
          (stepPredict (runSymbols initState (frames.map fun f => resolveSymbol f.1 f.2))
              (resolveSymbol cls pts)).str.length ∧
        initState.str.length ≤
          (runSymbols initState (frames.map fun f => resolveSymbol f.1 f.2)).str.length) := by
  have hInv0 : NoBackspaceInv initState := by
    constructor
    · decide
    · decide
  refine ⟨resolveSymbol_mem_allowed, fun frames hf cls pts hcls => ?_⟩
  have hall : ∀ x ∈ frames.map fun f => resolveSymbol f.1 f.2,
      x ≠ "Backspace" := by
    intro x hx
    obtain ⟨f, hf', rfl⟩ := List.mem_map.mp hx
    exact resolveSymbol_ne_backspace f.1 f.2 (hf f hf')
  have hrun := runSymbols_preserves _ initState hInv0 hall
  have hstep := stepPredict_preserves _ (resolveSymbol cls pts) hrun.1
    (resolveSymbol_ne_backspace cls pts hcls)
  exact ⟨hstep.2.2, hstep.2.1, hrun.2⟩

/-- C10 witness: a concrete class-0 frame resolves inside the allowed symbol
set, and after one such frame from the fresh state a class-4 symbol cannot
trigger the delete branch. -/
theorem c10_backspace_unreachable_witness :
    resolveSymbol 0 blankPts ∈ allowedSymbols ∧
    commitEffect
        (runSymbols initState ([((0 : Nat), blankPts)].map fun f => resolveSymbol f.1 f.2))
        (resolveSymbol 4 blankPts) ≠ some Effect.deleteLast :=
  ⟨c10_backspace_unreachable.1 0 blankPts (by decide),
    (c10_backspace_unreachable.2 [((0 : Nat), blankPts)] (by decide) 4 blankPts
      (by decide)).1⟩
